import Mathlib

/-!
Verification development for the `ai_explainer` service: a shallow embedding
of the evidence extractor (`evidence.py`), the prompt payload builder
(`llm_explain.py`), and the streaming endpoints (`main.py`), together with
theorems settling the specification claims.

JSON-like Python values are modelled by `Val`; machine floats and ints are
collapsed to `ℚ` (the code performs no float-specific arithmetic).  Code
that can raise is modelled in `Except PyErr`.  The generation engine is an
external collaborator and is modelled as an arbitrary list of text
fragments handed to the orchestrator.
-/

namespace AIExplainer

/-- Python exception classes observable in this code base. -/
inductive PyErr where
  | attributeError
  | validationError
  deriving DecidableEq, Repr

/-- JSON-like Python values (None/bool/number/str/list/dict).  Python ints
and floats are both mapped to `ℚ`; dict keys are strings as in JSON. -/
inductive Val where
  | none_
  | bool (b : Bool)
  | num (q : ℚ)
  | str (s : String)
  | list (xs : List Val)
  | dict (kvs : List (String × Val))

/-- Python truthiness (`bool(v)`): None/False/0/""/empty containers are falsy. -/
def truthy : Val → Bool
  | .none_ => false
  | .bool b => b
  | .num q => decide (q ≠ 0)
  | .str s => decide (s ≠ "")
  | .list xs => !xs.isEmpty
  | .dict kvs => !kvs.isEmpty

/-- Python `a or b` (returns the first truthy operand, else the second). -/
def pyOr (a b : Val) : Val := if truthy a then a else b

/-- Python `a or b` on two strings (empty means falsy). -/
def pyOrStr (a b : String) : String := if a = "" then b else a

/-- `kvs[k]` with default None, first binding wins (Python dicts cannot
hold duplicate keys). -/
def dictLookup (kvs : List (String × Val)) (k : String) : Val :=
  ((kvs.find? (fun kv => kv.1 = k)).map Prod.snd).getD .none_

/-- Python `v.get(k)`: defined on dicts (absent key gives None); every other
receiver raises `AttributeError`. -/
def pyGet : Val → String → Except PyErr Val
  | .dict kvs, k => .ok (dictLookup kvs k)
  | _, _ => .error .attributeError

/-- `v.get(k)` restricted to the non-raising case (None off dicts). -/
def lookupD (v : Val) (k : String) : Val :=
  match v with
  | .dict kvs => dictLookup kvs k
  | _ => .none_

/-- Rendering of a rational that matches Python `str` on integer values
(non-integral rationals have no exact Python float counterpart; no code
path under verification renders one). -/
def numRepr (q : ℚ) : String :=
  if q.den = 1 then toString q.num else toString q

/-- Python `repr` for JSON-like values (string escaping inside `repr` is not
modelled; no claim depends on it). -/
def pyRepr : Val → String
  | .none_ => "None"
  | .bool true => "True"
  | .bool false => "False"
  | .num q => numRepr q
  | .str s => "\x27" ++ s ++ "\x27"
  | .list xs => "[" ++ String.intercalate ", " (xs.attach.map (fun x => pyRepr x.1)) ++ "]"
  | .dict kvs =>
      "\x7b" ++
        String.intercalate ", "
          (kvs.attach.map (fun kv => "\x27" ++ kv.1.1 ++ "\x27: " ++ pyRepr kv.1.2)) ++
      "\x7d"
decreasing_by
  · have := List.sizeOf_lt_of_mem x.2
    simp only [Val.list.sizeOf_spec]
    omega
  · have h := List.sizeOf_lt_of_mem kv.2
    have : sizeOf kv.1.2 < sizeOf kv.1 := by
      obtain ⟨a, b⟩ := kv.1
      simp only [Prod.mk.sizeOf_spec]
      omega
    simp only [Val.dict.sizeOf_spec]
    omega

/-- Python `str(v)`. -/
def pyStr : Val → String
  | .str s => s
  | v => pyRepr v

/-- Value of a list of decimal digits. -/
def digitsToNat (ds : List Char) : Nat :=
  ds.foldl (fun a c => a * 10 + (c.toNat - 48)) 0

/-- Exponent suffix of a Python float literal (`e`/`E`, optional sign,
digits); `none` on trailing junk. -/
def parseExpSuffix (base : ℚ) (cs : List Char) : Option ℚ :=
  match cs with
  | [] => some base
  | e :: rest =>
    if e = 'e' ∨ e = 'E' then
      let (sgn, rest2) : ℚ × List Char :=
        match rest with
        | '+' :: r => (1, r)
        | '-' :: r => (-1, r)
        | r => (1, r)
      let ds := rest2.takeWhile (fun c => c.isDigit)
      let rest3 := rest2.dropWhile (fun c => c.isDigit)
      if ds.isEmpty ∨ ¬rest3.isEmpty then none
      else some (base * (10 : ℚ) ^ ((sgn * digitsToNat ds).num))
    else none

/-- Unsigned Python float literal: digits, optional fraction, optional
exponent. -/
def parseUnsignedFloat (cs : List Char) : Option ℚ :=
  let intDs := cs.takeWhile (fun c => c.isDigit)
  let rest := cs.dropWhile (fun c => c.isDigit)
  match rest with
  | '.' :: rest2 =>
    let fracDs := rest2.takeWhile (fun c => c.isDigit)
    let rest3 := rest2.dropWhile (fun c => c.isDigit)
    if intDs.isEmpty ∧ fracDs.isEmpty then none
    else
      parseExpSuffix
        ((digitsToNat intDs : ℚ) + (digitsToNat fracDs : ℚ) / (10 : ℚ) ^ fracDs.length)
        rest3
  | _ =>
    if intDs.isEmpty then none else parseExpSuffix (digitsToNat intDs : ℚ) rest

/-- Python `float(s)` on strings: optional surrounding whitespace, optional
sign, decimal literal.  (`inf`/`nan`/underscored literals are outside the
rational model; no claim exercises them.)  `none` models `ValueError`. -/
def parseFloatStr (s : String) : Option ℚ :=
  let cs := s.toList.dropWhile (fun c => c.isWhitespace)
  let cs := (cs.reverse.dropWhile (fun c => c.isWhitespace)).reverse
  match cs with
  | '+' :: rest => parseUnsignedFloat rest
  | '-' :: rest => (parseUnsignedFloat rest).map (fun q => -q)
  | rest => parseUnsignedFloat rest

/-- `evidence.py::_parse_risk_score`: `float(value)` with None and failures
mapped to `0.0`.  (`float(True) = 1.0` in Python; lists/dicts raise
`TypeError`, which the source catches.) -/
def _parse_risk_score : Val → ℚ
  | .none_ => 0
  | .num q => q
  | .bool b => if b then 1 else 0
  | .str s => (parseFloatStr s).getD 0
  | .list _ => 0
  | .dict _ => 0

/-- `isinstance(v, (int, float))` — Python `bool` is a subclass of `int`,
so booleans count as numbers (True = 1, False = 0). -/
def pyNumVal : Val → Option ℚ
  | .num q => some q
  | .bool b => some (if b then 1 else 0)
  | _ => none

/-- Python `int(q)` on a number: truncation toward zero. -/
def pyTrunc (q : ℚ) : Int := q.num.tdiv (q.den : Int)

/-- ASCII lowering of one character (`str.lower` restricted to ASCII; the
filenames compared against `".apk"` only exercise ASCII). -/
def asciiLower (c : Char) : Char :=
  if 'A' ≤ c ∧ c ≤ 'Z' then Char.ofNat (c.toNat + 32) else c

/-- Python `s.lower()`. -/
def pyLower (s : String) : String := ⟨s.data.map asciiLower⟩

/-- Python `s.endswith(suffix)`. -/
def strEndsWith (s sfx : String) : Bool :=
  decide (s.data.reverse.take sfx.data.length = sfx.data.reverse)

/-- `evidence.py::EvidenceItem`. -/
structure EvidenceItem where
  key : String
  severity : String
  message : String
  why_it_matters : String
  user_action : String
  deriving DecidableEq, Repr

/-- `evidence.py::EvidenceBundle` after pydantic validation: `screenshot`
is None or a str-to-str dict, `redirect_chain` a list of dicts,
`limitations` a list of strings. -/
structure EvidenceBundle where
  request_id : String
  extracted_url : String
  target_url : String := ""
  final_url : String := ""
  raw_text : String := ""
  risk_level : String
  risk_score : ℚ
  screenshot : Option (List (String × String)) := none
  redirect_chain : List Val := []
  evidence : List EvidenceItem := []
  coverage : String := "UNKNOWN"
  limitations : List String := []

/-- `download_apk` item (evidence.py lines 42-49). -/
def downloadApkItem (filename : String) : EvidenceItem :=
  { key := "download_apk"
    severity := "HIGH"
    message := "APK 파일 다운로드 시도가 감지되었습니다: " ++
      (if filename = "" then "unknown" else filename)
    why_it_matters := "APK 설치는 악성 앱 설치로 이어질 수 있어 계정 탈취 위험이 큽니다."
    user_action := "앱 설치나 다운로드는 즉시 중단하세요." }

/-- `credential_exfiltration` item (evidence.py lines 51-58). -/
def credentialItem : EvidenceItem :=
  { key := "credential_exfiltration"
    severity := "HIGH"
    message := "입력 정보를 외부로 전송하려는 동작이 감지되었습니다."
    why_it_matters := "아이디, 비밀번호, 인증번호가 공격자에게 전달될 수 있습니다."
    user_action := "링크에서 로그인이나 개인정보 입력을 하지 마세요." }

/-- `keystroke_capture` item (evidence.py lines 60-67). -/
def keystrokeItem : EvidenceItem :=
  { key := "keystroke_capture"
    severity := "HIGH"
    message := "키 입력을 수집하려는 스크립트가 감지되었습니다."
    why_it_matters := "입력 내용이 몰래 기록되어 탈취될 수 있습니다."
    user_action := "입력창에 아무것도 입력하지 마세요." }

/-- `ui_deception` item (evidence.py lines 69-76). -/
def uiDeceptionItem : EvidenceItem :=
  { key := "ui_deception"
    severity := "MEDIUM"
    message := "가짜 UI로 사용자를 속이려는 정황이 보입니다."
    why_it_matters := "공식 화면처럼 보이게 만들어 개인정보 입력을 유도할 수 있습니다."
    user_action := "화면이 그럴듯해 보여도 믿지 말고 접속을 중단하세요." }

/-- `brand_impersonation` item (evidence.py lines 78-85). -/
def brandItem : EvidenceItem :=
  { key := "brand_impersonation"
    severity := "MEDIUM"
    message := "브랜드나 도메인 위장을 시도한 정황이 있습니다."
    why_it_matters := "공식 사이트처럼 보이게 만들어 사용자를 속일 수 있습니다."
    user_action := "도메인을 꼼꼼히 확인하고 의심되면 접속을 중단하세요." }

/-- `new_domain` item (evidence.py lines 88-95); `d` is `int(age_days)`. -/
def newDomainItem (d : Int) : EvidenceItem :=
  { key := "new_domain"
    severity := "MEDIUM"
    message := "도메인이 생성된 지 " ++ toString d ++ "일로 매우 최근입니다."
    why_it_matters := "피싱 사이트는 짧게 만들고 빠르게 폐기하는 경우가 많습니다."
    user_action := "로그인이나 인증 요구가 있으면 즉시 중단하세요." }

/-- `cert_recent` item (evidence.py lines 97-105). -/
def certRecentItem (issuer : String) : EvidenceItem :=
  { key := "cert_recent"
    severity := "LOW"
    message := "TLS 인증서가 최근 발급된 것으로 보입니다. (issuer=" ++ issuer ++ ")"
    why_it_matters := "피싱 사이트에서도 흔히 보이는 특징이라 참고가 필요합니다."
    user_action := "인증서만 믿지 말고 다른 위험 신호도 함께 보세요." }

/-- `new_domain` guard: `isinstance(age, (int, float)) and age <= 7`. -/
def ageFires (age : Option ℚ) : Bool :=
  match age with
  | some q => decide (q ≤ 7)
  | none => false

/-- `int(age_days)` (only evaluated by the source when the guard fires). -/
def ageTrunc (age : Option ℚ) : Int :=
  match age with
  | some q => pyTrunc q
  | none => 0

/-- Pure tail of `_build_evidence_from_details` (evidence.py lines 42-107):
the seven appends, in fixed rule order, once the flag values have been
read. -/
def mkEvidence (dl cred ks ui brand : Bool) (filename : String)
    (age : Option ℚ) (certS : Bool) (issuer : String) : List EvidenceItem :=
  (if dl then [downloadApkItem filename] else []) ++
  (if cred then [credentialItem] else []) ++
  (if ks then [keystrokeItem] else []) ++
  (if ui then [uiDeceptionItem] else []) ++
  (if brand then [brandItem] else []) ++
  (if ageFires age then [newDomainItem (ageTrunc age)] else []) ++
  (if certS then [certRecentItem issuer] else [])

/-- `evidence.py::_build_evidence_from_details`.  Field reads happen in
source order.  Two source short-circuits are linearized because they are
observationally equivalent here: the behavioral read skipped by
`technical.get(..) or behavioral.get(..)` fails iff the unconditional
`behavioral.get("keystroke_capture")` read that immediately follows fails
(same receiver, same `AttributeError`), and the issuer read inside the
`cert.get("suspicious")` branch can no longer fail once the suspicious
read of the same receiver has succeeded. -/
def _build_evidence_from_details (details : Val) : Except PyErr (List EvidenceItem) := do
  let download := pyOr (← pyGet details "download_attempt") (.dict [])
  let technical := pyOr (← pyGet details "technical_findings") (.dict [])
  let behavioral := pyOr (← pyGet details "behavioral_findings") (.dict [])
  let domain := pyOr (← pyGet details "domain_analysis") (.dict [])
  let cert := pyOr (← pyGet details "certificate_analysis") (.dict [])
  let filename := pyStr (pyOr (← pyGet download "filename") (.str ""))
  let is_apk := strEndsWith (pyLower filename) ".apk"
  let dl := truthy (← pyGet download "attempted") && is_apk
  let credT := truthy (← pyGet technical "credential_exfiltration")
  let credB := truthy (← pyGet behavioral "external_post_on_input")
  let ks := truthy (← pyGet behavioral "keystroke_capture")
  let ui := truthy (← pyGet technical "ui_deception")
  let brand := truthy (← pyGet technical "brand_impersonation")
  let ageV ← pyGet domain "domain_age_days"
  let certS := truthy (← pyGet cert "suspicious")
  let issuer := pyStr (pyOr (← pyGet cert "issuer") (.str "unknown"))
  pure (mkEvidence dl (credT || credB) ks ui brand filename (pyNumVal ageV) certS issuer)

/-- Is this value a string? -/
def isStrVal : Val → Bool
  | .str _ => true
  | _ => false

/-- Is this value a dict? -/
def isDictVal : Val → Bool
  | .dict _ => true
  | _ => false

/-- The string carried by a string value. -/
def strOf : Val → String
  | .str s => s
  | _ => ""

/-- pydantic validation of `screenshot : Optional[Dict[str, str]]`. -/
def validateScreenshot : Val → Except PyErr (Option (List (String × String)))
  | .none_ => .ok none
  | .dict kvs =>
      if kvs.all (fun kv => isStrVal kv.2) then
        .ok (some (kvs.map (fun kv => (kv.1, strOf kv.2))))
      else .error .validationError
  | _ => .error .validationError

/-- pydantic validation of `redirect_chain : List[Dict[str, Any]]`. -/
def validateRedirect : Val → Except PyErr (List Val)
  | .list xs => if xs.all isDictVal then .ok xs else .error .validationError
  | _ => .error .validationError

/-- pydantic validation of `limitations : List[str]`. -/
def validateLimitations : Val → Except PyErr (List String)
  | .list xs =>
      if xs.all isStrVal then .ok (xs.map strOf) else .error .validationError
  | _ => .error .validationError

/-- `evidence.py::build_evidence_bundle` (the full-analysis-log shape).
Container validation runs at `EvidenceBundle(...)` construction, i.e. after
all field expressions were evaluated, matching pydantic. -/
def build_evidence_bundle (log : Val) : Except PyErr EvidenceBundle := do
  let request_id := pyStr (pyOr (← pyGet log "request_id") (.str "unknown"))
  let original_input := pyOr (← pyGet log "original_input") (.dict [])
  let extracted_url := pyStr (pyOr (← pyGet original_input "extracted_url") (.str ""))
  let raw_text := pyStr (pyOr (← pyGet original_input "raw_text") (.str ""))
  let summary := pyOr (← pyGet log "summary") (.dict [])
  let risk_level := pyStr (pyOr (← pyGet summary "risk_level") (.str "UNKNOWN"))
  let risk_score := _parse_risk_score (← pyGet summary "risk_score")
  let screenshotV ← pyGet log "visual_snapshot_storage"
  let result := pyOr (← pyGet log "result") (.dict [])
  let redirectV := pyOr (← pyGet result "redirect_chain") (.list [])
  let confidence := pyOr (← pyGet log "confidence") (.dict [])
  let coverage := pyStr (pyOr (← pyGet confidence "analysis_coverage") (.str "UNKNOWN"))
  let limitationsV := pyOr (← pyGet confidence "limitations") (.list [])
  let evidence ← _build_evidence_from_details result
  let screenshot ← validateScreenshot screenshotV
  let redirect_chain ← validateRedirect redirectV
  let limitations ← validateLimitations limitationsV
  pure { request_id, extracted_url, target_url := extracted_url, final_url := "",
         raw_text, risk_level, risk_score, screenshot, redirect_chain,
         evidence, coverage, limitations }

/-- `payload.get("screenshot") or payload.get("visual_snapshot_storage")`,
with the second read short-circuited away when the first is truthy. -/
def screenshotSrc (payload s1 : Val) : Except PyErr Val :=
  if truthy s1 then .ok s1 else pyGet payload "visual_snapshot_storage"

/-- `evidence.py::build_evidence_bundle_from_details` (the persisted-record
shape). -/
def build_evidence_bundle_from_details (result_id : String) (payload : Val) :
    Except PyErr EvidenceBundle := do
  let summary := pyOr (← pyGet payload "summary") (.dict [])
  let risk_level := pyStr (pyOr (← pyGet summary "risk_level") (.str "UNKNOWN"))
  let risk_score := _parse_risk_score (← pyGet summary "risk_score")
  let target_url := pyStr (pyOr (← pyGet payload "target_url") (.str ""))
  let final_url := pyStr (pyOr (← pyGet payload "final_url") (.str ""))
  let extracted_url := pyOrStr target_url final_url
  let s1 ← pyGet payload "screenshot"
  let screenshotV ← screenshotSrc payload s1
  let details := pyOr (← pyGet payload "details") (.dict [])
  let redirectV := pyOr (← pyGet details "redirect_chain") (.list [])
  let evidence ← _build_evidence_from_details details
  let confidence := pyOr (← pyGet payload "confidence") (.dict [])
  let coverage := pyStr (pyOr (← pyGet confidence "analysis_coverage") (.str "UNKNOWN"))
  let limitationsV := pyOr (← pyGet confidence "limitations") (.list [])
  let screenshot ← validateScreenshot screenshotV
  let redirect_chain ← validateRedirect redirectV
  let limitations ← validateLimitations limitationsV
  pure { request_id := result_id, extracted_url, target_url, final_url,
         raw_text := "", risk_level, risk_score, screenshot, redirect_chain,
         evidence, coverage, limitations }

/-- One per-bundle entry of the prompt payload built by
`llm_explain.py::stream_explanation` (lines 196-219). -/
structure PromptItem where
  result_id : String
  risk_level : String
  risk_score : ℚ
  target_url : String
  final_url : String
  message : String
  redirect_chain : List Val
  evidence : List EvidenceItem
  analysis_coverage : String
  limitations : List String
  screenshot : Option (List (String × String))

/-- The per-bundle payload entry: redirect chain cut to the first 8 hops
(`bundle.redirect_chain[:8]`), evidence passed whole, `target_url or
extracted_url`. -/
def mkPromptItem (b : EvidenceBundle) : PromptItem :=
  { result_id := b.request_id
    risk_level := b.risk_level
    risk_score := b.risk_score
    target_url := if b.target_url = "" then b.extracted_url else b.target_url
    final_url := b.final_url
    message := b.raw_text
    redirect_chain := b.redirect_chain.take 8
    evidence := b.evidence
    analysis_coverage := b.coverage
    limitations := b.limitations
    screenshot := b.screenshot }

/-- The `items` array of the prompt payload sent to the generation engine. -/
def stream_explanation_payload (bundles : List EvidenceBundle) : List PromptItem :=
  bundles.map mkPromptItem

/-- The fragments relayed out of `stream_explanation`: the engine stream,
with empty chunks dropped (`if chunk.content:`). -/
def stream_explanation_out (engineChunks : List String) : List String :=
  engineChunks.filter (fun t => ¬t = "")

/-- One server-sent event: a name and its (not yet serialized) JSON data. -/
structure SSEEvent where
  event : String
  data : Val

/-- Encoding of a validated screenshot back into event JSON. -/
def screenshotVal : Option (List (String × String)) → Val
  | none => .none_
  | some kvs => .dict (kvs.map (fun kv => (kv.1, .str kv.2)))

/-- `EvidenceItem.model_dump()` as event JSON. -/
def evidenceItemVal (e : EvidenceItem) : Val :=
  .dict [("key", .str e.key), ("severity", .str e.severity),
         ("message", .str e.message), ("why_it_matters", .str e.why_it_matters),
         ("user_action", .str e.user_action)]

/-- The per-result meta object (main.py lines 116-124 and 183-191). -/
def metaItemVal (b : EvidenceBundle) (statusVal : Val) : Val :=
  .dict [("result_id", .str b.request_id), ("url", .str b.extracted_url),
         ("message", .str b.raw_text), ("risk_level", .str b.risk_level),
         ("risk_score", .num b.risk_score), ("screenshot", screenshotVal b.screenshot),
         ("status", statusVal)]

/-- The per-result evidence object (main.py lines 126-130 and 192-197);
`withId` distinguishes the batch shape, which tags each entry with its
`result_id`. -/
def evidenceEntryVal (withId : Bool) (b : EvidenceBundle) : Val :=
  .dict ((if withId then [("result_id", Val.str b.request_id)] else []) ++
         [("coverage", .str b.coverage),
          ("limitations", .list (b.limitations.map Val.str)),
          ("evidence", .list (b.evidence.map evidenceItemVal))])

/-- A `delta` event carrying one relayed fragment. -/
def deltaEvent (t : String) : SSEEvent :=
  ⟨"delta", .dict [("text", .str t)]⟩

/-- The terminal `done` event. -/
def doneEvent : SSEEvent :=
  ⟨"done", .dict [("status", .str "OK")]⟩

/-- `main.py::explain_single_stream.gen` (lines 115-141): meta, evidence,
one delta per relayed fragment, done. -/
def singleGen (b : EvidenceBundle) (statusVal : Val) (frags : List String) :
    List SSEEvent :=
  ⟨"meta", metaItemVal b statusVal⟩ ::
  ⟨"evidence", evidenceEntryVal false b⟩ ::
  ((stream_explanation_out frags).map deltaEvent ++ [doneEvent])

/-- `main.py::explain_stream.gen` (lines 179-211): array-shaped meta and
evidence built from `zip(bundles, status_values)`, then deltas, then done. -/
def batchGen (pairs : List (EvidenceBundle × Val)) (frags : List String) :
    List SSEEvent :=
  ⟨"meta", .dict [("items", .list (pairs.map (fun p => metaItemVal p.1 p.2)))]⟩ ::
  ⟨"evidence", .dict [("items", .list (pairs.map (fun p => evidenceEntryVal true p.1)))]⟩ ::
  ((stream_explanation_out frags).map deltaEvent ++ [doneEvent])

/-- `models.py::AnalysisResult`: one persisted analysis row. -/
structure AnalysisResult where
  result_id : String
  status : Option String
  details : Option Val
  llm_summary : Option String
  message_text : Option String

/-- `mock_store.py::MOCK_LOGS["uuid"]`, the built-in fixture record. -/
def MOCK_LOG_UUID : Val := .dict
  [("request_id", .str "uuid"),
   ("user_id", .str "userid"),
   ("submitted_at", .str "2026-01-06T09:32:11Z"),
   ("original_input", .dict
     [("raw_text", .str "..."), ("extracted_url", .str "https://www.naver.com")]),
   ("summary", .dict [("risk_level", .str "HIGH"), ("risk_score", .num 87)]),
   ("visual_snapshot_storage", .dict
     [("provider", .str "s3"), ("bucket", .str "screenshots"),
      ("key", .str "snapshots/2026/01/abc123.png"), ("region", .str "ap-northeast-2")]),
   ("result", .dict
     [("redirect_chain", .list
        [.dict [("type", .str "HTTP"), ("from", .str "http://bit.ly/xxx"),
                ("to", .str "https://example.com"), ("status", .num 302)],
         .dict [("type", .str "JS"), ("from", .str "https://example.com"),
                ("to", .str "https://secure-login-example.net")]]),
      ("download_attempt", .dict
        [("attempted", .bool true),
         ("mime_type", .str "application/vnd.android.package-archive"),
         ("filename", .str "SecurityUpdate.apk"),
         ("content_disposition", .str "attachment"),
         ("auto_triggered", .bool true)]),
      ("technical_findings", .dict
        [("ui_deception", .bool true), ("credential_exfiltration", .bool true),
         ("brand_impersonation", .bool true)]),
      ("behavioral_findings", .dict
        [("keystroke_capture", .bool true), ("external_post_on_input", .bool true),
         ("eval_usage_count", .num 12), ("tab_control_script", .bool true)]),
      ("domain_analysis", .dict [("domain_age_days", .num 3)]),
      ("certificate_analysis", .dict
        [("issuer", .str "Let\x27s Encrypt"), ("issued_days_ago", .num 2),
         ("domain_mismatch", .bool false), ("suspicious", .bool true)])]),
   ("confidence", .dict
     [("analysis_coverage", .str "PARTIAL"),
      ("limitations", .list [.str "CAPTCHA", .str "OBFUSCATION"])])]

/-- `mock_store.py::get_mock_log`. -/
def get_mock_log (request_id : String) : Option Val :=
  if request_id = "uuid" then some MOCK_LOG_UUID else none

/-- Request-level failures: an `HTTPException` (status code, detail) or an
uncaught Python exception escaping the handler. -/
inductive EndpointErr where
  | http (code : Nat) (detail : String)
  | pyerr (e : PyErr)
  deriving DecidableEq, Repr

/-- Lift extractor failures into endpoint failures. -/
def liftPy : Except PyErr α → Except EndpointErr α
  | .ok a => .ok a
  | .error e => .error (.pyerr e)

/-- `row.status` as event JSON (`None` when the column is NULL). -/
def statusToVal : Option String → Val
  | none => .none_
  | some s => .str s

/-- Truthiness of the optional `message` request field (`if payload.message:`). -/
def optTruthy : Option String → Bool
  | none => false
  | some s => decide (s ≠ "")

/-- The message-override step (`bundle.model_copy(update={"raw_text": m})`,
applied only when the override is truthy). -/
def applyOverride (m : Option String) (b : EvidenceBundle) : EvidenceBundle :=
  match m with
  | some s => if s = "" then b else { b with raw_text := s }
  | none => b

/-- `main.py::explain_single_stream` (lines 92-143).  The database is a map
from identifier to row, the generation engine an arbitrary fragment list. -/
def explain_single_stream (db : String → Option AnalysisResult)
    (result_id : String) (message : Option String) (frags : List String) :
    Except EndpointErr (List SSEEvent) := do
  let (bundle, statusVal) ←
    if result_id = "uuid" then
      match get_mock_log result_id with
      | none => Except.error (.http 404 "mock data not found")
      | some log => do
          let b ← liftPy (build_evidence_bundle log)
          let st ← liftPy (pyGet log "status")
          pure (b, st)
    else
      match db result_id with
      | none => Except.error (.http 404 "result_id not found")
      | some row =>
        match row.details with
        | none => Except.error (.http 404 "result_id not found")
        | some d =>
          if truthy d then do
            let b ← liftPy (build_evidence_bundle_from_details result_id d)
            pure (b, statusToVal row.status)
          else Except.error (.http 404 "result_id not found")
  let bundle := applyOverride message bundle
  pure (singleGen bundle statusVal frags)

/-- One iteration of the resolution loop in `main.py::explain_stream`
(lines 158-171): `none` models `continue` (identifier silently dropped). -/
def resolveId (db : String → Option AnalysisResult) (result_id : String) :
    Except PyErr (Option (EvidenceBundle × Val)) :=
  if result_id = "uuid" then
    match get_mock_log result_id with
    | none => .ok none
    | some log => do
        let b ← build_evidence_bundle log
        let st ← pyGet log "status"
        pure (some (b, st))
  else
    match db result_id with
    | none => .ok none
    | some row =>
      match row.details with
      | none => .ok none
      | some d =>
        if truthy d then do
          let b ← build_evidence_bundle_from_details result_id d
          pure (some (b, statusToVal row.status))
        else .ok none

/-- The resolution loop over the whole identifier list, in input order. -/
def resolveAll (db : String → Option AnalysisResult) :
    List String → Except PyErr (List (Option (EvidenceBundle × Val)))
  | [] => .ok []
  | rid :: rest => do
      let r ← resolveId db rid
      let rs ← resolveAll db rest
      pure (r :: rs)

/-- `main.py::explain_stream` (lines 146-213). -/
def explain_stream (db : String → Option AnalysisResult)
    (result_ids : List String) (message : Option String) (frags : List String) :
    Except EndpointErr (List SSEEvent) :=
  if result_ids.isEmpty then .error (.http 400 "result_ids is required")
  else do
    let rs ← liftPy (resolveAll db result_ids)
    let pairs := rs.reduceOption
    if pairs.isEmpty then .error (.http 404 "result_id not found")
    else
      let pairs :=
        if optTruthy message then
          pairs.map (fun p => (applyOverride message p.1, p.2))
        else pairs
      pure (batchGen pairs frags)

/-- The texts of the `delta` events of a stream, in order. -/
def deltaTexts (evs : List SSEEvent) : List String :=
  evs.filterMap (fun e =>
    if e.event = "delta" then
      match e.data with
      | .dict kvs =>
        match (kvs.find? (fun kv => kv.1 = "text")).map Prod.snd with
        | some (.str t) => some t
        | _ => none
      | _ => none
    else none)

/-- The seven rule keys, in the fixed evaluation order of
`_build_evidence_from_details`. -/
def ruleKeys : List String :=
  ["download_apk", "credential_exfiltration", "keystroke_capture",
   "ui_deception", "brand_impersonation", "new_domain", "cert_recent"]

/-- The fixed severity attached to each rule key. -/
def fixedSeverity : String → String
  | "download_apk" => "HIGH"
  | "credential_exfiltration" => "HIGH"
  | "keystroke_capture" => "HIGH"
  | "ui_deception" => "MEDIUM"
  | "brand_impersonation" => "MEDIUM"
  | "new_domain" => "MEDIUM"
  | "cert_recent" => "LOW"
  | _ => "UNKNOWN"

/-- A value whose `.get` use degrades safely: a dict, or falsy (which the
`or {}` defaulting replaces). -/
def dictOrFalsy : Val → Bool
  | .dict _ => true
  | v => !truthy v

/-- Shape under which the rule-table pass cannot raise: each findings
sub-object of the (already defaulted) details dict is a dict or falsy. -/
def detailsShapeOk (d : Val) : Bool :=
  dictOrFalsy d &&
  (["download_attempt", "technical_findings", "behavioral_findings",
    "domain_analysis", "certificate_analysis"].all
    (fun k => dictOrFalsy (lookupD (pyOr d (.dict [])) k)))

/-- Shape accepted by the pydantic `screenshot` field. -/
def screenshotShapeOk : Val → Bool
  | .none_ => true
  | .dict kvs => kvs.all (fun kv => isStrVal kv.2)
  | _ => false

/-- Shape accepted by the pydantic `redirect_chain` field. -/
def listOfDictsOk : Val → Bool
  | .list xs => xs.all isDictVal
  | _ => false

/-- Shape accepted by the pydantic `limitations` field. -/
def listOfStrsOk : Val → Bool
  | .list xs => xs.all isStrVal
  | _ => false

/-- Amended C4 hypothesis for the full-log entry point: the input is a
dict whose structured fields are dicts or falsy and whose pydantic-validated
fields have the expected container shapes. -/
def safeShapeLog (log : Val) : Bool :=
  isDictVal log &&
  dictOrFalsy (lookupD log "original_input") &&
  dictOrFalsy (lookupD log "summary") &&
  dictOrFalsy (lookupD log "confidence") &&
  detailsShapeOk (lookupD log "result") &&
  screenshotShapeOk (lookupD log "visual_snapshot_storage") &&
  listOfDictsOk (pyOr (lookupD (pyOr (lookupD log "result") (.dict [])) "redirect_chain") (.list [])) &&
  listOfStrsOk (pyOr (lookupD (pyOr (lookupD log "confidence") (.dict [])) "limitations") (.list []))

/-- Amended C4 hypothesis for the persisted-record entry point. -/
def safeShapePayload (payload : Val) : Bool :=
  isDictVal payload &&
  dictOrFalsy (lookupD payload "summary") &&
  dictOrFalsy (lookupD payload "confidence") &&
  detailsShapeOk (lookupD payload "details") &&
  screenshotShapeOk (pyOr (lookupD payload "screenshot") (lookupD payload "visual_snapshot_storage")) &&
  listOfDictsOk (pyOr (lookupD (pyOr (lookupD payload "details") (.dict [])) "redirect_chain") (.list [])) &&
  listOfStrsOk (pyOr (lookupD (pyOr (lookupD payload "confidence") (.dict [])) "limitations") (.list []))

/-- C3 counterexample details: a download was attempted, the declared MIME
type is the Android package type, but the filename does not end in
`.apk`. -/
def c3input : Val := .dict
  [("download_attempt", .dict
    [("attempted", .bool true), ("filename", .str "update.bin"),
     ("mime_type", .str "application/vnd.android.package-archive")])]

/-- C5 counterexample details: a negative domain age. -/
def c5input : Val := .dict
  [("domain_analysis", .dict [("domain_age_days", .num (-3))])]

/-- C1 counterexample log: `summary.risk_score` is the string `"87"`. -/
def c1input : Val := .dict
  [("summary", .dict [("risk_level", .str "HIGH"), ("risk_score", .str "87")])]

/-- C4 counterexample log: `original_input` is a (truthy) string instead of
an object. -/
def c4input : Val := .dict [("original_input", .str "hello")]

/-- A persisted row with a cached explanation (`llm_summary` set) used to
exercise the cache-replay claims. -/
def cachedRow : AnalysisResult :=
  { result_id := "r1"
    status := some "DONE"
    details := some (.dict [("summary", .dict
      [("risk_level", .str "LOW"), ("risk_score", .num 10)])])
    llm_summary := some "이전 요청에서 생성되어 저장된 설명 텍스트입니다."
    message_text := none }

/-- A one-row store holding `cachedRow` under `"r1"`. -/
def cachedDb : String → Option AnalysisResult :=
  fun rid => if rid = "r1" then some cachedRow else none

/-- The bundle produced for the fixture record. -/
def mockBundle : EvidenceBundle :=
  (build_evidence_bundle MOCK_LOG_UUID).toOption.getD
    { request_id := "", extracted_url := "", risk_level := "", risk_score := 0 }

/-- Does the bundle's evidence list carry an item with this key? -/
def hasKey (ev : List EvidenceItem) (k : String) : Bool :=
  ev.any (fun e => e.key == k)

/-- Did the computation return normally (no exception)? -/
def exceptIsOk {ε α} : Except ε α → Bool
  | .ok _ => true
  | .error _ => false

/-- Details of a download attempt whose filename does end in `.apk`
(used to exercise the positive branch of the download rule). -/
def c3apkInput : Val := .dict
  [("download_attempt", .dict
    [("attempted", .bool true), ("filename", .str "malware.apk")])]

/-! ### Helper lemmas -/

theorem exBind_def {ε α β} (x : Except ε α) (f : α → Except ε β) :
    x >>= f = Except.bind x f := rfl

theorem exPure_def {ε α} (a : α) : (pure a : Except ε α) = Except.ok a := rfl

@[simp] theorem exBind_ok {ε α β} (a : α) (f : α → Except ε β) :
    (Except.ok a : Except ε α) >>= f = f a := rfl

@[simp] theorem exBind_error {ε α β} (e : ε) (f : α → Except ε β) :
    (Except.error e : Except ε α) >>= f = Except.error e := rfl

@[simp] theorem liftPy_ok {α} (a : α) : liftPy (.ok a) = (.ok a : Except EndpointErr α) := rfl

@[simp] theorem liftPy_error {α} (e : PyErr) :
    liftPy (.error e : Except PyErr α) = .error (.pyerr e) := rfl

theorem mem_guard {α} {c : Bool} {x a : α} :
    a ∈ (if c then [x] else []) ↔ c = true ∧ a = x := by
  cases c <;> simp

theorem map_guard {α β} {c : Bool} {x : α} (f : α → β) :
    (if c then [x] else []).map f = (if c then [f x] else []) := by
  cases c <;> simp

theorem guard_sublist {α} {c : Bool} {x : α} :
    List.Sublist (if c then [x] else []) [x] := by
  cases c <;> simp

/-- Success of the rule pass determines all intermediate reads and pins the
result to `mkEvidence` of the read flags. -/
theorem build_details_spec {details : Val} {ev : List EvidenceItem}
    (h : _build_evidence_from_details details = .ok ev) :
    ∃ down tech behav dom cert fnV attV credTV credBV ksV uiV brV ageV csV issV,
      pyGet details "download_attempt" = .ok down ∧
      pyGet details "technical_findings" = .ok tech ∧
      pyGet details "behavioral_findings" = .ok behav ∧
      pyGet details "domain_analysis" = .ok dom ∧
      pyGet details "certificate_analysis" = .ok cert ∧
      pyGet (pyOr down (.dict [])) "filename" = .ok fnV ∧
      pyGet (pyOr down (.dict [])) "attempted" = .ok attV ∧
      pyGet (pyOr tech (.dict [])) "credential_exfiltration" = .ok credTV ∧
      pyGet (pyOr behav (.dict [])) "external_post_on_input" = .ok credBV ∧
      pyGet (pyOr behav (.dict [])) "keystroke_capture" = .ok ksV ∧
      pyGet (pyOr tech (.dict [])) "ui_deception" = .ok uiV ∧
      pyGet (pyOr tech (.dict [])) "brand_impersonation" = .ok brV ∧
      pyGet (pyOr dom (.dict [])) "domain_age_days" = .ok ageV ∧
      pyGet (pyOr cert (.dict [])) "suspicious" = .ok csV ∧
      pyGet (pyOr cert (.dict [])) "issuer" = .ok issV ∧
      ev = mkEvidence
        (truthy attV && strEndsWith (pyLower (pyStr (pyOr fnV (.str "")))) ".apk")
        (truthy credTV || truthy credBV) (truthy ksV) (truthy uiV) (truthy brV)
        (pyStr (pyOr fnV (.str ""))) (pyNumVal ageV) (truthy csV)
        (pyStr (pyOr issV (.str "unknown"))) := by
  unfold _build_evidence_from_details at h
  simp only [exBind_def, exPure_def] at h
  unfold Except.bind at h
  repeat'
    first
      | split at h
      | (beta_reduce at h; split at h)
  all_goals first
    | (injection h with h'
       exact ⟨_, _, _, _, _, _, _, _, _, _, _, _, _, _, _,
         ‹_›, ‹_›, ‹_›, ‹_›, ‹_›, ‹_›, ‹_›, ‹_›, ‹_›, ‹_›, ‹_›, ‹_›, ‹_›, ‹_›,
         ‹_›, h'.symm⟩)
    | injection h

/-- Membership in the rule output, rule by rule. -/
theorem mem_mkEvidence {e : EvidenceItem} {dl cred ks ui brand : Bool}
    {fn : String} {age : Option ℚ} {cs : Bool} {iss : String} :
    e ∈ mkEvidence dl cred ks ui brand fn age cs iss ↔
      (dl = true ∧ e = downloadApkItem fn) ∨
      (cred = true ∧ e = credentialItem) ∨
      (ks = true ∧ e = keystrokeItem) ∨
      (ui = true ∧ e = uiDeceptionItem) ∨
      (brand = true ∧ e = brandItem) ∨
      (ageFires age = true ∧ e = newDomainItem (ageTrunc age)) ∨
      (cs = true ∧ e = certRecentItem iss) := by
  simp [mkEvidence, List.mem_append, mem_guard]

/-- Key membership in the rule output. -/
theorem key_mem_mkEvidence {k : String} {dl cred ks ui brand : Bool}
    {fn : String} {age : Option ℚ} {cs : Bool} {iss : String} :
    k ∈ (mkEvidence dl cred ks ui brand fn age cs iss).map EvidenceItem.key ↔
      (dl = true ∧ k = "download_apk") ∨
      (cred = true ∧ k = "credential_exfiltration") ∨
      (ks = true ∧ k = "keystroke_capture") ∨
      (ui = true ∧ k = "ui_deception") ∨
      (brand = true ∧ k = "brand_impersonation") ∨
      (ageFires age = true ∧ k = "new_domain") ∨
      (cs = true ∧ k = "cert_recent") := by
  constructor
  · intro hk
    obtain ⟨e, he, hke⟩ := List.mem_map.mp hk
    rcases mem_mkEvidence.mp he with ⟨hc, rfl⟩ | ⟨hc, rfl⟩ | ⟨hc, rfl⟩ | ⟨hc, rfl⟩
      | ⟨hc, rfl⟩ | ⟨hc, rfl⟩ | ⟨hc, rfl⟩ <;>
      simp_all [downloadApkItem, credentialItem, keystrokeItem, uiDeceptionItem,
        brandItem, newDomainItem, certRecentItem]
  · intro hk
    refine List.mem_map.mpr ?_
    rcases hk with ⟨hc, rfl⟩ | ⟨hc, rfl⟩ | ⟨hc, rfl⟩ | ⟨hc, rfl⟩
      | ⟨hc, rfl⟩ | ⟨hc, rfl⟩ | ⟨hc, rfl⟩
    · exact ⟨downloadApkItem fn, mem_mkEvidence.mpr (Or.inl ⟨hc, rfl⟩), rfl⟩
    · exact ⟨credentialItem, mem_mkEvidence.mpr (Or.inr (Or.inl ⟨hc, rfl⟩)), rfl⟩
    · exact ⟨keystrokeItem,
        mem_mkEvidence.mpr (Or.inr (Or.inr (Or.inl ⟨hc, rfl⟩))), rfl⟩
    · exact ⟨uiDeceptionItem,
        mem_mkEvidence.mpr (Or.inr (Or.inr (Or.inr (Or.inl ⟨hc, rfl⟩)))), rfl⟩
    · exact ⟨brandItem,
        mem_mkEvidence.mpr (Or.inr (Or.inr (Or.inr (Or.inr (Or.inl ⟨hc, rfl⟩))))), rfl⟩
    · exact ⟨newDomainItem (ageTrunc age),
        mem_mkEvidence.mpr (Or.inr (Or.inr (Or.inr (Or.inr (Or.inr (Or.inl ⟨hc, rfl⟩)))))), rfl⟩
    · exact ⟨certRecentItem iss,
        mem_mkEvidence.mpr (Or.inr (Or.inr (Or.inr (Or.inr (Or.inr (Or.inr ⟨hc, rfl⟩)))))), rfl⟩

/-- The keys of a rule output form a subsequence of the fixed rule order. -/
theorem mkEvidence_keys_sublist (dl cred ks ui brand : Bool)
    (fn : String) (age : Option ℚ) (cs : Bool) (iss : String) :
    List.Sublist ((mkEvidence dl cred ks ui brand fn age cs iss).map EvidenceItem.key)
      ruleKeys := by
  unfold mkEvidence ruleKeys
  simp only [List.map_append, map_guard, List.append_assoc]
  exact (guard_sublist.append (guard_sublist.append (guard_sublist.append
    (guard_sublist.append (guard_sublist.append
      (guard_sublist.append guard_sublist))))))

theorem hasKey_iff {ev : List EvidenceItem} {k : String} :
    hasKey ev k = true ↔ k ∈ ev.map EvidenceItem.key := by
  simp [hasKey, List.any_eq_true, List.mem_map, beq_iff_eq]

theorem hasKey_mkEvidence_download (dl cred ks ui brand : Bool)
    (fn : String) (age : Option ℚ) (cs : Bool) (iss : String) :
    hasKey (mkEvidence dl cred ks ui brand fn age cs iss) "download_apk" = dl := by
  cases dl with
  | true =>
    exact hasKey_iff.mpr (List.mem_map.mpr
      ⟨downloadApkItem fn, mem_mkEvidence.mpr (Or.inl ⟨rfl, rfl⟩), rfl⟩)
  | false =>
    rw [Bool.eq_false_iff]
    intro hk
    obtain ⟨e, he, hke⟩ := List.mem_map.mp (hasKey_iff.mp hk)
    rcases mem_mkEvidence.mp he with ⟨hc, rfl⟩ | ⟨hc, rfl⟩ | ⟨hc, rfl⟩ | ⟨hc, rfl⟩
      | ⟨hc, rfl⟩ | ⟨hc, rfl⟩ | ⟨hc, rfl⟩ <;>
      simp_all [downloadApkItem, credentialItem, keystrokeItem, uiDeceptionItem,
        brandItem, newDomainItem, certRecentItem]

theorem hasKey_mkEvidence_newdomain (dl cred ks ui brand : Bool)
    (fn : String) (age : Option ℚ) (cs : Bool) (iss : String) :
    hasKey (mkEvidence dl cred ks ui brand fn age cs iss) "new_domain" = ageFires age := by
  cases ha : ageFires age with
  | true =>
    exact hasKey_iff.mpr (List.mem_map.mpr
      ⟨newDomainItem (ageTrunc age),
       mem_mkEvidence.mpr (Or.inr (Or.inr (Or.inr (Or.inr (Or.inr (Or.inl ⟨ha, rfl⟩)))))),
       rfl⟩)
  | false =>
    rw [Bool.eq_false_iff]
    intro hk
    obtain ⟨e, he, hke⟩ := List.mem_map.mp (hasKey_iff.mp hk)
    rcases mem_mkEvidence.mp he with ⟨hc, rfl⟩ | ⟨hc, rfl⟩ | ⟨hc, rfl⟩ | ⟨hc, rfl⟩
      | ⟨hc, rfl⟩ | ⟨hc, rfl⟩ | ⟨hc, rfl⟩ <;>
      simp_all [downloadApkItem, credentialItem, keystrokeItem, uiDeceptionItem,
        brandItem, newDomainItem, certRecentItem]

theorem filter_guard {α} {c : Bool} {x : α} (p : α → Bool) :
    (if c then [x] else []).filter p = (if c && p x then [x] else []) := by
  cases c <;> cases hp : p x <;> simp [List.filter, hp]

theorem filter_newdomain_mkEvidence (dl cred ks ui brand : Bool)
    (fn : String) (age : Option ℚ) (cs : Bool) (iss : String) :
    (mkEvidence dl cred ks ui brand fn age cs iss).filter
        (fun e => e.key == "new_domain") =
      (if ageFires age then [newDomainItem (ageTrunc age)] else []) := by
  unfold mkEvidence
  simp [List.filter_append, filter_guard, downloadApkItem, credentialItem,
    keystrokeItem, uiDeceptionItem, brandItem, newDomainItem, certRecentItem]

/-- C9: each rule contributes at most one item, keys are unique, the list
order is the fixed rule-evaluation order (a subsequence of `ruleKeys`), and
each key carries its fixed severity. -/
theorem c9_rule_table_invariants :
    ∀ (details : Val) (ev : List EvidenceItem),
      _build_evidence_from_details details = .ok ev →
      List.Sublist (ev.map EvidenceItem.key) ruleKeys ∧
      (ev.map EvidenceItem.key).Nodup ∧
      ev.all (fun e => e.severity == fixedSeverity e.key) = true := by
  intro details ev h
  obtain ⟨_, _, _, _, _, _, _, _, _, _, _, _, _, _, _,
    -, -, -, -, -, -, -, -, -, -, -, -, -, -, -, hev⟩ := build_details_spec h
  subst hev
  refine ⟨mkEvidence_keys_sublist _ _ _ _ _ _ _ _ _, ?_, ?_⟩
  · exact (mkEvidence_keys_sublist _ _ _ _ _ _ _ _ _).nodup (by decide)
  · rw [List.all_eq_true]
    intro e he
    rcases mem_mkEvidence.mp he with ⟨-, rfl⟩ | ⟨-, rfl⟩ | ⟨-, rfl⟩ | ⟨-, rfl⟩
      | ⟨-, rfl⟩ | ⟨-, rfl⟩ | ⟨-, rfl⟩ <;> rfl

/-- C9 witness: the fixture record details fire all seven rules; the
invariants hold on the resulting list. -/
theorem c9_rule_table_witness :
    List.Sublist (([downloadApkItem "SecurityUpdate.apk", credentialItem,
        keystrokeItem, uiDeceptionItem, brandItem, newDomainItem 3,
        certRecentItem "Let\x27s Encrypt"].map EvidenceItem.key)) ruleKeys ∧
    ([downloadApkItem "SecurityUpdate.apk", credentialItem, keystrokeItem,
        uiDeceptionItem, brandItem, newDomainItem 3,
        certRecentItem "Let\x27s Encrypt"].map EvidenceItem.key).Nodup ∧
    ([downloadApkItem "SecurityUpdate.apk", credentialItem, keystrokeItem,
        uiDeceptionItem, brandItem, newDomainItem 3,
        certRecentItem "Let\x27s Encrypt"].all
      (fun e => e.severity == fixedSeverity e.key)) = true :=
  c9_rule_table_invariants (lookupD MOCK_LOG_UUID "result")
    [downloadApkItem "SecurityUpdate.apk", credentialItem, keystrokeItem,
     uiDeceptionItem, brandItem, newDomainItem 3,
     certRecentItem "Let\x27s Encrypt"] rfl

/-- C3 (amended): the download rule fires iff the download was attempted
(truthy) and the stringified filename, lowercased, ends in `.apk`; the
declared MIME type is never consulted. -/
theorem c3_download_rule :
    ∀ (details : Val) (ev : List EvidenceItem) (down fnV attV : Val),
      _build_evidence_from_details details = .ok ev →
      pyGet details "download_attempt" = .ok down →
      pyGet (pyOr down (.dict [])) "filename" = .ok fnV →
      pyGet (pyOr down (.dict [])) "attempted" = .ok attV →
      hasKey ev "download_apk" =
        (truthy attV && strEndsWith (pyLower (pyStr (pyOr fnV (.str "")))) ".apk") := by
  intro details ev down fnV attV h hd hf ha
  obtain ⟨d, _, _, _, _, f, a, _, _, _, _, _, _, _, _,
    h1, -, -, -, -, h6, h7, -, -, -, -, -, -, -, -, hev⟩ := build_details_spec h
  rw [hd] at h1
  injection h1 with h1
  subst h1
  rw [hf] at h6
  injection h6 with h6
  subst h6
  rw [ha] at h7
  injection h7 with h7
  subst h7
  subst hev
  exact hasKey_mkEvidence_download _ _ _ _ _ _ _ _ _

/-- C3 counterexample: with `attempted=true`, MIME type
`application/vnd.android.package-archive`, and a non-`.apk` filename, the
extractor produces no evidence item at all, refuting the claimed
MIME-based detection. -/
theorem c3_download_rule_cex :
    _build_evidence_from_details c3input = .ok [] ∧
    pyGet (lookupD c3input "download_attempt") "attempted" = .ok (.bool true) ∧
    pyGet (lookupD c3input "download_attempt") "mime_type" =
      .ok (.str "application/vnd.android.package-archive") :=
  ⟨rfl, rfl, rfl⟩

/-- C3 witness: a `.apk` filename with `attempted=true` does fire the rule. -/
theorem c3_download_rule_witness :
    hasKey [downloadApkItem "malware.apk"] "download_apk" =
      (truthy (.bool true) &&
        strEndsWith (pyLower (pyStr (pyOr (.str "malware.apk") (.str "")))) ".apk") :=
  c3_download_rule c3apkInput [downloadApkItem "malware.apk"]
    (lookupD c3apkInput "download_attempt") (.str "malware.apk") (.bool true)
    rfl rfl rfl rfl

/-- C5 (amended): the `new_domain` rule fires iff `domain_age_days` is a
Python number (booleans included, as `bool` subclasses `int`) that is at
most 7 — negative ages included — and the single fired item interpolates
the toward-zero truncation of the age. -/
theorem c5_new_domain_rule :
    ∀ (details : Val) (ev : List EvidenceItem) (dom ageV : Val),
      _build_evidence_from_details details = .ok ev →
      pyGet details "domain_analysis" = .ok dom →
      pyGet (pyOr dom (.dict [])) "domain_age_days" = .ok ageV →
      hasKey ev "new_domain" = ageFires (pyNumVal ageV) ∧
      ev.filter (fun e => e.key == "new_domain") =
        (if ageFires (pyNumVal ageV) then
          [newDomainItem (ageTrunc (pyNumVal ageV))] else []) := by
  intro details ev dom ageV h hd hg
  obtain ⟨_, _, _, d, _, _, _, _, _, _, _, _, g, _, _,
    -, -, -, h4, -, -, -, -, -, -, -, -, h13, -, -, hev⟩ := build_details_spec h
  rw [hd] at h4
  injection h4 with h4
  subst h4
  rw [hg] at h13
  injection h13 with h13
  subst h13
  subst hev
  exact ⟨hasKey_mkEvidence_newdomain _ _ _ _ _ _ _ _ _,
    filter_newdomain_mkEvidence _ _ _ _ _ _ _ _ _⟩

/-- C5 counterexample: a negative age (−3 days) does fire `new_domain`,
and the message interpolates −3, refuting "not produced for negative
ages". -/
theorem c5_new_domain_rule_cex :
    _build_evidence_from_details c5input =
      .ok [{ key := "new_domain", severity := "MEDIUM",
             message := "도메인이 생성된 지 -3일로 매우 최근입니다.",
             why_it_matters := "피싱 사이트는 짧게 만들고 빠르게 폐기하는 경우가 많습니다.",
             user_action := "로그인이나 인증 요구가 있으면 즉시 중단하세요." }] ∧
    ((-3 : ℚ) < 0) := by
  constructor
  · rfl
  · norm_num

/-- C5 witness: the rule characterization applied at a concrete age. -/
theorem c5_new_domain_rule_witness :
    hasKey [newDomainItem (-3)] "new_domain" = ageFires (pyNumVal (.num (-3))) ∧
    [newDomainItem (-3)].filter (fun e => e.key == "new_domain") =
      (if ageFires (pyNumVal (.num (-3))) then
        [newDomainItem (ageTrunc (pyNumVal (.num (-3))))] else []) :=
  c5_new_domain_rule c5input [newDomainItem (-3)]
    (lookupD c5input "domain_analysis") (.num (-3)) rfl rfl rfl

/-- Success of the full-log entry point determines every field of the
resulting bundle from the reads it performed. -/
theorem build_bundle_spec {log : Val} {b : EvidenceBundle}
    (h : build_evidence_bundle log = .ok b) :
    ∃ ridV oi exV rtV sm rlV rsV ssV res rdV conf covV limV evd ss rd lim,
      pyGet log "request_id" = .ok ridV ∧
      pyGet log "original_input" = .ok oi ∧
      pyGet (pyOr oi (.dict [])) "extracted_url" = .ok exV ∧
      pyGet (pyOr oi (.dict [])) "raw_text" = .ok rtV ∧
      pyGet log "summary" = .ok sm ∧
      pyGet (pyOr sm (.dict [])) "risk_level" = .ok rlV ∧
      pyGet (pyOr sm (.dict [])) "risk_score" = .ok rsV ∧
      pyGet log "visual_snapshot_storage" = .ok ssV ∧
      pyGet log "result" = .ok res ∧
      pyGet (pyOr res (.dict [])) "redirect_chain" = .ok rdV ∧
      pyGet log "confidence" = .ok conf ∧
      pyGet (pyOr conf (.dict [])) "analysis_coverage" = .ok covV ∧
      pyGet (pyOr conf (.dict [])) "limitations" = .ok limV ∧
      _build_evidence_from_details (pyOr res (.dict [])) = .ok evd ∧
      validateScreenshot ssV = .ok ss ∧
      validateRedirect (pyOr rdV (.list [])) = .ok rd ∧
      validateLimitations (pyOr limV (.list [])) = .ok lim ∧
      b = { request_id := pyStr (pyOr ridV (.str "unknown"))
            extracted_url := pyStr (pyOr exV (.str ""))
            target_url := pyStr (pyOr exV (.str ""))
            final_url := ""
            raw_text := pyStr (pyOr rtV (.str ""))
            risk_level := pyStr (pyOr rlV (.str "UNKNOWN"))
            risk_score := _parse_risk_score rsV
            screenshot := ss
            redirect_chain := rd
            evidence := evd
            coverage := pyStr (pyOr covV (.str "UNKNOWN"))
            limitations := lim } := by
  unfold build_evidence_bundle at h
  simp only [exBind_def, exPure_def] at h
  unfold Except.bind at h
  repeat'
    first
      | split at h
      | (beta_reduce at h; split at h)
  all_goals first
    | (injection h with h'
       exact ⟨_, _, _, _, _, _, _, _, _, _, _, _, _, _, _, _, _,
         ‹_›, ‹_›, ‹_›, ‹_›, ‹_›, ‹_›, ‹_›, ‹_›, ‹_›, ‹_›, ‹_›, ‹_›, ‹_›, ‹_›,
         ‹_›, ‹_›, ‹_›, h'.symm⟩)
    | injection h

/-- Success of the persisted-record entry point determines every field of
the resulting bundle. -/
theorem build_from_details_spec {result_id : String} {payload : Val}
    {b : EvidenceBundle}
    (h : build_evidence_bundle_from_details result_id payload = .ok b) :
    ∃ sm rlV rsV tuV fuV s1 ssV det rdV evd conf covV limV ss rd lim,
      pyGet payload "summary" = .ok sm ∧
      pyGet (pyOr sm (.dict [])) "risk_level" = .ok rlV ∧
      pyGet (pyOr sm (.dict [])) "risk_score" = .ok rsV ∧
      pyGet payload "target_url" = .ok tuV ∧
      pyGet payload "final_url" = .ok fuV ∧
      pyGet payload "screenshot" = .ok s1 ∧
      screenshotSrc payload s1 = .ok ssV ∧
      pyGet payload "details" = .ok det ∧
      pyGet (pyOr det (.dict [])) "redirect_chain" = .ok rdV ∧
      _build_evidence_from_details (pyOr det (.dict [])) = .ok evd ∧
      pyGet payload "confidence" = .ok conf ∧
      pyGet (pyOr conf (.dict [])) "analysis_coverage" = .ok covV ∧
      pyGet (pyOr conf (.dict [])) "limitations" = .ok limV ∧
      validateScreenshot ssV = .ok ss ∧
      validateRedirect (pyOr rdV (.list [])) = .ok rd ∧
      validateLimitations (pyOr limV (.list [])) = .ok lim ∧
      b = { request_id := result_id
            extracted_url :=
              pyOrStr (pyStr (pyOr tuV (.str ""))) (pyStr (pyOr fuV (.str "")))
            target_url := pyStr (pyOr tuV (.str ""))
            final_url := pyStr (pyOr fuV (.str ""))
            raw_text := ""
            risk_level := pyStr (pyOr rlV (.str "UNKNOWN"))
            risk_score := _parse_risk_score rsV
            screenshot := ss
            redirect_chain := rd
            evidence := evd
            coverage := pyStr (pyOr covV (.str "UNKNOWN"))
            limitations := lim } := by
  unfold build_evidence_bundle_from_details at h
  simp only [exBind_def, exPure_def] at h
  unfold Except.bind at h
  repeat'
    first
      | split at h
      | (beta_reduce at h; split at h)
  all_goals first
    | (injection h with h'
       exact ⟨_, _, _, _, _, _, _, _, _, _, _, _, _, _, _, _,
         ‹_›, ‹_›, ‹_›, ‹_›, ‹_›, ‹_›, ‹_›, ‹_›, ‹_›, ‹_›, ‹_›, ‹_›, ‹_›, ‹_›,
         ‹_›, ‹_›, h'.symm⟩)
    | injection h

theorem pyOr_str_truthy {s : String} (hs : s ≠ "") (d : Val) :
    pyOr (.str s) d = .str s := by
  simp [pyOr, truthy, hs]

/-- C1 (amended): when `summary.risk_level` is a non-empty string and
`summary.risk_score` is a number, both extractor entry points copy them
verbatim into the bundle, and no downstream step (message override, prompt
payload, meta event) changes them; other input types are normalized
(stringified level, float-parsed score) rather than copied. -/
theorem c1_risk_passthrough :
    (∀ (log : Val) (b : EvidenceBundle) (sm : Val) (s : String) (q : ℚ),
      build_evidence_bundle log = .ok b →
      pyGet log "summary" = .ok sm →
      pyGet (pyOr sm (.dict [])) "risk_level" = .ok (.str s) →
      s ≠ "" →
      pyGet (pyOr sm (.dict [])) "risk_score" = .ok (.num q) →
      b.risk_level = s ∧ b.risk_score = q) ∧
    (∀ (rid : String) (payload : Val) (b : EvidenceBundle) (sm : Val)
        (s : String) (q : ℚ),
      build_evidence_bundle_from_details rid payload = .ok b →
      pyGet payload "summary" = .ok sm →
      pyGet (pyOr sm (.dict [])) "risk_level" = .ok (.str s) →
      s ≠ "" →
      pyGet (pyOr sm (.dict [])) "risk_score" = .ok (.num q) →
      b.risk_level = s ∧ b.risk_score = q) ∧
    (∀ (m : Option String) (b : EvidenceBundle),
      (applyOverride m b).risk_level = b.risk_level ∧
      (applyOverride m b).risk_score = b.risk_score) ∧
    (∀ b : EvidenceBundle,
      (mkPromptItem b).risk_level = b.risk_level ∧
      (mkPromptItem b).risk_score = b.risk_score) ∧
    (∀ (b : EvidenceBundle) (st : Val),
      lookupD (metaItemVal b st) "risk_level" = .str b.risk_level ∧
      lookupD (metaItemVal b st) "risk_score" = .num b.risk_score) := by
  refine ⟨?_, ?_, ?_, ?_, ?_⟩
  · intro log b sm s q h hsm hrl hs hrs
    obtain ⟨_, _, _, _, sm', rlV, rsV, _, _, _, _, _, _, _, _, _, _,
      -, -, -, -, h5, h6, h7, -, -, -, -, -, -, -, -, -, -, hb⟩ := build_bundle_spec h
    rw [hsm] at h5
    injection h5 with h5
    subst h5
    rw [hrl] at h6
    injection h6 with h6
    subst h6
    rw [hrs] at h7
    injection h7 with h7
    subst h7
    subst hb
    exact ⟨by simp [pyOr_str_truthy hs, pyStr], rfl⟩
  · intro rid payload b sm s q h hsm hrl hs hrs
    obtain ⟨sm', rlV, rsV, _, _, _, _, _, _, _, _, _, _, _, _, _,
      h1, h2, h3, -, -, -, -, -, -, -, -, -, -, -, -, -, hb⟩ :=
      build_from_details_spec h
    rw [hsm] at h1
    injection h1 with h1
    subst h1
    rw [hrl] at h2
    injection h2 with h2
    subst h2
    rw [hrs] at h3
    injection h3 with h3
    subst h3
    subst hb
    exact ⟨by simp [pyOr_str_truthy hs, pyStr], rfl⟩
  · intro m b
    cases m with
    | none => exact ⟨rfl, rfl⟩
    | some s => by_cases hs : s = "" <;> simp [applyOverride, hs]
  · intro b
    exact ⟨rfl, rfl⟩
  · intro b st
    exact ⟨rfl, rfl⟩

/-- C1 counterexample: a string-typed `summary.risk_score` (`"87"`) is
float-parsed into the number 87 rather than copied verbatim: the input
value is the string `"87"`, not the number 87. -/
theorem c1_risk_passthrough_cex :
    (build_evidence_bundle c1input).map (fun b => b.risk_score) = .ok 87 ∧
    pyGet (lookupD c1input "summary") "risk_score" = .ok (.str "87") ∧
    Val.str "87" ≠ Val.num 87 :=
  ⟨rfl, rfl, fun h => Val.noConfusion h⟩

/-- C1 witness: the fixture record's `HIGH`/`87` summary passes through
verbatim. -/
theorem c1_risk_passthrough_witness :
    mockBundle.risk_level = "HIGH" ∧ mockBundle.risk_score = 87 :=
  c1_risk_passthrough.1 MOCK_LOG_UUID mockBundle
    (.dict [("risk_level", .str "HIGH"), ("risk_score", .num 87)])
    "HIGH" 87 rfl rfl rfl (by decide) rfl

theorem map_deltaEvent_event (l : List String) :
    l.map (SSEEvent.event ∘ deltaEvent) = List.replicate l.length "delta" := by
  induction l with
  | nil => rfl
  | cons x xs ih =>
    simp only [List.map_cons, List.length_cons, List.replicate, ih,
      Function.comp_apply, deltaEvent]

/-- C6: every completed stream of either analysis endpoint is exactly one
meta event, one evidence event, zero or more delta events (one per relayed
fragment), and one final done event with status OK — also when there are
zero fragments. -/
theorem c6_event_order :
    (∀ (b : EvidenceBundle) (st : Val) (frags : List String),
      (singleGen b st frags).map SSEEvent.event =
        "meta" :: "evidence" ::
          (List.replicate (stream_explanation_out frags).length "delta" ++ ["done"]) ∧
      (singleGen b st frags).getLast? =
        some ⟨"done", .dict [("status", .str "OK")]⟩) ∧
    (∀ (pairs : List (EvidenceBundle × Val)) (frags : List String),
      (batchGen pairs frags).map SSEEvent.event =
        "meta" :: "evidence" ::
          (List.replicate (stream_explanation_out frags).length "delta" ++ ["done"]) ∧
      (batchGen pairs frags).getLast? =
        some ⟨"done", .dict [("status", .str "OK")]⟩) := by
  constructor
  · intro b st frags
    constructor
    · simp [singleGen, List.map_append, map_deltaEvent_event, doneEvent]
    · rw [singleGen, show
        (⟨"meta", metaItemVal b st⟩ : SSEEvent) :: ⟨"evidence", evidenceEntryVal false b⟩ ::
          ((stream_explanation_out frags).map deltaEvent ++ [doneEvent]) =
        (⟨"meta", metaItemVal b st⟩ :: ⟨"evidence", evidenceEntryVal false b⟩ ::
          (stream_explanation_out frags).map deltaEvent) ++ [doneEvent]
        from by simp]
      exact List.getLast?_concat _
  · intro pairs frags
    constructor
    · simp [batchGen, List.map_append, map_deltaEvent_event, doneEvent]
    · rw [batchGen, show
        (⟨"meta", Val.dict [("items", Val.list (pairs.map (fun p => metaItemVal p.1 p.2)))]⟩ : SSEEvent) ::
          ⟨"evidence", Val.dict [("items", Val.list (pairs.map (fun p => evidenceEntryVal true p.1)))]⟩ ::
          ((stream_explanation_out frags).map deltaEvent ++ [doneEvent]) =
        (⟨"meta", Val.dict [("items", Val.list (pairs.map (fun p => metaItemVal p.1 p.2)))]⟩ ::
          ⟨"evidence", Val.dict [("items", Val.list (pairs.map (fun p => evidenceEntryVal true p.1)))]⟩ ::
          (stream_explanation_out frags).map deltaEvent) ++ [doneEvent]
        from by simp]
      exact List.getLast?_concat _

/-- C8: each prompt payload entry carries the first 8 redirect hops and the
full evidence list of its bundle; chains of at most 8 hops are passed
unchanged. -/
theorem c8_prompt_truncation :
    ∀ (bundles : List EvidenceBundle) (b : EvidenceBundle), b ∈ bundles →
      mkPromptItem b ∈ stream_explanation_payload bundles ∧
      (mkPromptItem b).redirect_chain = b.redirect_chain.take 8 ∧
      (mkPromptItem b).evidence = b.evidence ∧
      (b.redirect_chain.length ≤ 8 →
        (mkPromptItem b).redirect_chain = b.redirect_chain) := by
  intro bundles b hb
  exact ⟨List.mem_map_of_mem mkPromptItem hb, rfl, rfl,
    fun h8 => List.take_of_length_le h8⟩

/-- C8 witness: the fixture bundle (2 redirect hops) passes through the
prompt builder with its chain unchanged and evidence intact. -/
theorem c8_prompt_truncation_witness :
    mkPromptItem mockBundle ∈ stream_explanation_payload [mockBundle] ∧
    (mkPromptItem mockBundle).redirect_chain = mockBundle.redirect_chain.take 8 ∧
    (mkPromptItem mockBundle).evidence = mockBundle.evidence ∧
    (mkPromptItem mockBundle).redirect_chain = mockBundle.redirect_chain := by
  obtain ⟨h1, h2, h3, h4⟩ :=
    c8_prompt_truncation [mockBundle] mockBundle (List.mem_singleton.mpr rfl)
  exact ⟨h1, h2, h3, h4 (by decide)⟩

theorem deltaTexts_map_delta (l : List String) :
    deltaTexts (l.map deltaEvent ++ [doneEvent]) = l := by
  induction l with
  | nil => rfl
  | cons x xs ih =>
    simpa [deltaTexts, deltaEvent, List.filterMap_cons] using ih

theorem deltaTexts_singleGen (b : EvidenceBundle) (st : Val) (frags : List String) :
    deltaTexts (singleGen b st frags) = stream_explanation_out frags := by
  have h := deltaTexts_map_delta (stream_explanation_out frags)
  simpa [singleGen, deltaTexts, List.filterMap_cons] using h

theorem deltaTexts_batchGen (pairs : List (EvidenceBundle × Val)) (frags : List String) :
    deltaTexts (batchGen pairs frags) = stream_explanation_out frags := by
  have h := deltaTexts_map_delta (stream_explanation_out frags)
  simpa [batchGen, deltaTexts, List.filterMap_cons] using h

/-- A successful single-result stream is exactly the generator output for
some resolved bundle and status, with the override applied. -/
theorem explain_single_ok {db : String → Option AnalysisResult} {rid : String}
    {msg : Option String} {frags : List String} {evs : List SSEEvent}
    (h : explain_single_stream db rid msg frags = .ok evs) :
    ∃ b st, evs = singleGen (applyOverride msg b) st frags := by
  unfold explain_single_stream at h
  simp only [exBind_def, exPure_def] at h
  unfold Except.bind at h
  repeat'
    first
      | split at h
      | (beta_reduce at h; split at h)
  all_goals first
    | (injection h with h'; exact ⟨_, _, h'.symm⟩)
    | injection h

/-- C2 (amended): the single-result explain operation has no cache-replay
path: the delta texts of every successful stream are exactly the engine's
(non-empty) fragments, and the result is entirely independent of the
record's stored `llm_summary`; a cached explanation is never replayed and
generation is always invoked. -/
theorem c2_no_cache_replay :
    (∀ (db : String → Option AnalysisResult) (rid : String) (msg : Option String)
        (frags : List String) (evs : List SSEEvent),
      explain_single_stream db rid msg frags = .ok evs →
      deltaTexts evs = stream_explanation_out frags) ∧
    (∀ (db : String → Option AnalysisResult)
        (f : String → AnalysisResult → Option String)
        (rid : String) (msg : Option String) (frags : List String),
      explain_single_stream
          (fun i => (db i).map (fun r => { r with llm_summary := f i r }))
          rid msg frags =
        explain_single_stream db rid msg frags) := by
  constructor
  · intro db rid msg frags evs h
    obtain ⟨b, st, rfl⟩ := explain_single_ok h
    exact deltaTexts_singleGen _ _ _
  · intro db f rid msg frags
    by_cases hr : rid = "uuid"
    · simp [explain_single_stream, hr]
    · simp only [explain_single_stream, hr, if_false]
      cases hdb : db rid <;> simp [hdb]

/-- C2 counterexample: for a record whose `llm_summary` holds a previously
generated explanation and a request with no message override, the streamed
text is whatever the engine produces — two runs with different engine
output yield different texts, and neither is the cached text. -/
theorem c2_no_cache_replay_cex :
    cachedRow.llm_summary = some "이전 요청에서 생성되어 저장된 설명 텍스트입니다." ∧
    (explain_single_stream cachedDb "r1" none ["실시간 생성 A"]).map deltaTexts =
      .ok ["실시간 생성 A"] ∧
    (explain_single_stream cachedDb "r1" none ["실시간 생성 B"]).map deltaTexts =
      .ok ["실시간 생성 B"] ∧
    ("실시간 생성 A" : String) ≠ "이전 요청에서 생성되어 저장된 설명 텍스트입니다." ∧
    ("실시간 생성 A" : String) ≠ "실시간 생성 B" :=
  ⟨rfl, rfl, rfl, by decide, by decide⟩

/-- C2 witness: the amended theorem applied to the cached record. -/
theorem c2_no_cache_replay_witness :
    deltaTexts ((explain_single_stream cachedDb "r1" none ["조각"]).toOption.getD []) =
      stream_explanation_out ["조각"] :=
  c2_no_cache_replay.1 cachedDb "r1" none ["조각"]
    ((explain_single_stream cachedDb "r1" none ["조각"]).toOption.getD []) rfl

theorem applyOverride_not_truthy {m : Option String} (hm : optTruthy m = false)
    (b : EvidenceBundle) : applyOverride m b = b := by
  cases m with
  | none => rfl
  | some s =>
    simp only [optTruthy, decide_eq_false_iff_not, not_not] at hm
    simp [applyOverride, hm]

/-- C10: an empty-string message override is treated exactly like no
override at both explain endpoints (the falsy check `if payload.message:`),
leaving every bundle's `raw_text` untouched; only a non-empty override
replaces `raw_text`. -/
theorem c10_empty_override :
    (∀ (db : String → Option AnalysisResult) (rid : String) (frags : List String),
      explain_single_stream db rid (some "") frags =
        explain_single_stream db rid none frags) ∧
    (∀ (db : String → Option AnalysisResult) (ids : List String) (frags : List String),
      explain_stream db ids (some "") frags = explain_stream db ids none frags) ∧
    (∀ (b : EvidenceBundle) (s : String), s ≠ "" →
      (applyOverride (some s) b).raw_text = s) ∧
    (∀ (m : Option String) (b : EvidenceBundle), optTruthy m = false →
      applyOverride m b = b) := by
  refine ⟨?_, ?_, ?_, ?_⟩
  · intro db rid frags
    rfl
  · intro db ids frags
    rfl
  · intro b s hs
    simp [applyOverride, hs]
  · intro m b hm
    exact applyOverride_not_truthy hm b

/-- C10 witness: a non-empty override rewrites `raw_text`; an empty one is
the identity. -/
theorem c10_empty_override_witness :
    (applyOverride (some "새 메시지") mockBundle).raw_text = "새 메시지" ∧
    applyOverride (some "") mockBundle = mockBundle :=
  ⟨c10_empty_override.2.2.1 mockBundle "새 메시지" (by decide),
   c10_empty_override.2.2.2 (some "") mockBundle rfl⟩

theorem resolveAll_all_none {db : String → Option AnalysisResult}
    {ids : List String} {rs : List (Option (EvidenceBundle × Val))}
    (h : resolveAll db ids = .ok rs) :
    (rs.reduceOption = [] ↔ ∀ rid ∈ ids, resolveId db rid = .ok none) := by
  induction ids generalizing rs with
  | nil =>
    injection h with h
    subst h
    simp [List.reduceOption_nil]
  | cons x xs ih =>
    unfold resolveAll at h
    simp only [exBind_def, exPure_def] at h
    unfold Except.bind at h
    cases hx : resolveId db x with
    | error e => rw [hx] at h; exact absurd h (by simp)
    | ok r =>
      rw [hx] at h
      cases hrest : resolveAll db xs with
      | error e => rw [hrest] at h; exact absurd h (by simp)
      | ok rest =>
        rw [hrest] at h
        injection h with h
        subst h
        cases r with
        | some p =>
          simp only [List.reduceOption_cons_of_some]
          constructor
          · intro hc
            exact absurd hc (by simp)
          · intro hall
            have := hall x (List.mem_cons_self x xs)
            rw [hx] at this
            injection this with this
            exact absurd this (by simp)
        | none =>
          simp only [List.reduceOption_cons_of_none]
          rw [ih hrest]
          constructor
          · intro hall rid hrid
            rcases List.mem_cons.mp hrid with rfl | hmem
            · exact hx
            · exact hall rid hmem
          · intro hall rid hrid
            exact hall rid (List.mem_cons_of_mem _ hrid)

theorem map_applyOverride_not_truthy {m : Option String} (hm : optTruthy m = false)
    (pairs : List (EvidenceBundle × Val)) :
    pairs.map (fun p => (applyOverride m p.1, p.2)) = pairs := by
  have : (fun p : EvidenceBundle × Val => (applyOverride m p.1, p.2)) = fun p => p := by
    funext p
    rw [applyOverride_not_truthy hm]
  rw [this, List.map_id']

theorem explain_stream_eq_ok {db : String → Option AnalysisResult}
    {ids : List String} {msg : Option String} {frags : List String}
    {rs : List (Option (EvidenceBundle × Val))}
    (hne : ids.isEmpty = false) (hr : resolveAll db ids = .ok rs) :
    explain_stream db ids msg frags =
      (if rs.reduceOption.isEmpty then .error (.http 404 "result_id not found")
       else .ok (batchGen
         (if optTruthy msg then
           rs.reduceOption.map (fun p => (applyOverride msg p.1, p.2))
         else rs.reduceOption) frags)) := by
  unfold explain_stream
  rw [hne]
  simp only [Bool.false_eq_true, if_false, exBind_def, hr, liftPy_ok]
  unfold Except.bind
  split
  · rename_i heq
    exact absurd heq (by simp)
  · rename_i v heq
    injection heq with heq
    subst heq
    rfl

theorem explain_stream_eq_err {db : String → Option AnalysisResult}
    {ids : List String} {msg : Option String} {frags : List String} {e : PyErr}
    (hne : ids.isEmpty = false) (hr : resolveAll db ids = .error e) :
    explain_stream db ids msg frags = .error (.pyerr e) := by
  unfold explain_stream
  rw [hne]
  simp only [Bool.false_eq_true, if_false, exBind_def, hr, liftPy_error]
  unfold Except.bind
  rfl

/-- C7: the batch endpoint rejects an empty identifier list with 400;
unresolvable identifiers are silently dropped; it fails with 404 exactly
when every identifier is unresolvable; and on success the meta/evidence
events carry one array entry per surviving bundle in input order. -/
theorem c7_batch_resolution :
    (∀ (db : String → Option AnalysisResult) (msg : Option String) (frags : List String),
      explain_stream db [] msg frags = .error (.http 400 "result_ids is required")) ∧
    (∀ (db : String → Option AnalysisResult) (ids : List String)
        (msg : Option String) (frags : List String),
      explain_stream db ids msg frags = .error (.http 404 "result_id not found") ↔
        (ids ≠ [] ∧ ∃ rs, resolveAll db ids = .ok rs ∧
          ∀ rid ∈ ids, resolveId db rid = .ok none)) ∧
    (∀ (db : String → Option AnalysisResult) (ids : List String)
        (msg : Option String) (frags : List String) (evs : List SSEEvent),
      explain_stream db ids msg frags = .ok evs →
      ids ≠ [] ∧
      ((resolveAll db ids).toOption.getD []).reduceOption ≠ [] ∧
      evs = batchGen
        ((((resolveAll db ids).toOption.getD []).reduceOption).map
          (fun p => (applyOverride msg p.1, p.2))) frags) := by
  refine ⟨?_, ?_, ?_⟩
  · intro db msg frags
    rfl
  · intro db ids msg frags
    by_cases hids : ids.isEmpty
    · rw [List.isEmpty_iff] at hids
      subst hids
      simp [explain_stream]
    · rw [Bool.not_eq_true] at hids
      have hne : ids ≠ [] := by
        intro hc
        subst hc
        exact absurd hids (by simp)
      cases hr : resolveAll db ids with
      | error e =>
        rw [explain_stream_eq_err hids hr]
        constructor
        · intro hc
          injection hc with hc
          exact absurd hc (by simp)
        · rintro ⟨-, rs', hrs', -⟩
          exact absurd hrs' (by simp)
      | ok rs =>
        rw [explain_stream_eq_ok hids hr]
        by_cases hre : rs.reduceOption.isEmpty
        · rw [if_pos hre]
          rw [List.isEmpty_iff] at hre
          simp only [true_iff, hne, ne_eq, not_false_iff, true_and]
          exact ⟨rs, rfl, (resolveAll_all_none hr).mp hre⟩
        · rw [if_neg hre]
          constructor
          · intro hc
            exact absurd hc (by simp)
          · rintro ⟨-, rs', hrs', hall⟩
            injection hrs' with hrs'
            subst hrs'
            have hnil : rs.reduceOption = [] := (resolveAll_all_none hr).mpr hall
            rw [hnil] at hre
            exact absurd rfl hre
  · intro db ids msg frags evs h
    by_cases hids : ids.isEmpty
    · rw [explain_stream] at h
      simp [hids] at h
    · rw [Bool.not_eq_true] at hids
      have hne : ids ≠ [] := by
        intro hc
        subst hc
        exact absurd hids (by simp)
      cases hr : resolveAll db ids with
      | error e =>
        rw [explain_stream_eq_err hids hr] at h
        exact absurd h (by simp)
      | ok rs =>
        rw [explain_stream_eq_ok hids hr] at h
        by_cases hre : rs.reduceOption.isEmpty
        · rw [if_pos hre] at h
          exact absurd h (by simp)
        · rw [if_neg hre] at h
          injection h with h
          refine ⟨hne, ?_, ?_⟩
          · show rs.reduceOption ≠ []
            intro hc
            rw [← List.isEmpty_iff] at hc
            exact hre hc
          · show evs = batchGen
              (rs.reduceOption.map (fun p => (applyOverride msg p.1, p.2))) frags
            by_cases hm : optTruthy msg
            · rw [if_pos hm] at h
              exact h.symm
            · rw [Bool.not_eq_true] at hm
              rw [if_neg (by simp [hm])] at h
              rw [map_applyOverride_not_truthy hm]
              exact h.symm

/-- C7 witness: a batch of one resolvable and one unknown identifier
produces arrays covering exactly the surviving bundle. -/
theorem c7_batch_resolution_witness :
    (["r1", "zz"] : List String) ≠ [] ∧
    ((resolveAll cachedDb ["r1", "zz"]).toOption.getD []).reduceOption ≠ [] ∧
    ((explain_stream cachedDb ["r1", "zz"] none ["본문"]).toOption.getD []) =
      batchGen
        ((((resolveAll cachedDb ["r1", "zz"]).toOption.getD []).reduceOption).map
          (fun p => (applyOverride none p.1, p.2))) ["본문"] :=
  c7_batch_resolution.2.2 cachedDb ["r1", "zz"] none ["본문"]
    ((explain_stream cachedDb ["r1", "zz"] none ["본문"]).toOption.getD []) rfl

@[simp] theorem pyGet_dict (kvs : List (String × Val)) (k : String) :
    pyGet (.dict kvs) k = .ok (dictLookup kvs k) := rfl

theorem isDict_exists {v : Val} (h : isDictVal v = true) :
    ∃ kvs, v = .dict kvs := by
  cases v <;> simp_all [isDictVal]

theorem dictish_pyOr {v : Val} (h : dictOrFalsy v = true) :
    ∃ kvs, pyOr v (.dict []) = .dict kvs := by
  by_cases ht : truthy v = true
  · cases v with
    | dict kvs => exact ⟨kvs, by simp [pyOr, ht]⟩
    | none_ => simp [truthy] at ht
    | bool b => simp_all [dictOrFalsy, truthy]
    | num q => simp_all [dictOrFalsy, truthy]
    | str s => simp_all [dictOrFalsy, truthy]
    | list xs => simp_all [dictOrFalsy, truthy]
  · rw [Bool.not_eq_true] at ht
    exact ⟨[], by simp [pyOr, ht]⟩

theorem validateScreenshot_total {v : Val} (h : screenshotShapeOk v = true) :
    ∃ o, validateScreenshot v = .ok o := by
  cases v with
  | none_ => exact ⟨none, rfl⟩
  | dict kvs =>
    simp only [screenshotShapeOk] at h
    exact ⟨some (kvs.map (fun kv => (kv.1, strOf kv.2))),
      by simp only [validateScreenshot]; rw [h, if_pos rfl]⟩
  | bool b => simp [screenshotShapeOk] at h
  | num q => simp [screenshotShapeOk] at h
  | str s => simp [screenshotShapeOk] at h
  | list xs => simp [screenshotShapeOk] at h

theorem validateRedirect_total {v : Val} (h : listOfDictsOk v = true) :
    ∃ o, validateRedirect v = .ok o := by
  cases v with
  | list xs =>
    simp only [listOfDictsOk] at h
    exact ⟨xs, by simp only [validateRedirect]; rw [h, if_pos rfl]⟩
  | none_ => simp [listOfDictsOk] at h
  | bool b => simp [listOfDictsOk] at h
  | num q => simp [listOfDictsOk] at h
  | str s => simp [listOfDictsOk] at h
  | dict kvs => simp [listOfDictsOk] at h

theorem validateLimitations_total {v : Val} (h : listOfStrsOk v = true) :
    ∃ o, validateLimitations v = .ok o := by
  cases v with
  | list xs =>
    simp only [listOfStrsOk] at h
    exact ⟨xs.map strOf, by simp only [validateLimitations]; rw [h, if_pos rfl]⟩
  | none_ => simp [listOfStrsOk] at h
  | bool b => simp [listOfStrsOk] at h
  | num q => simp [listOfStrsOk] at h
  | str s => simp [listOfStrsOk] at h
  | dict kvs => simp [listOfStrsOk] at h

theorem build_details_total {d : Val} (h : detailsShapeOk d = true) :
    ∃ ev, _build_evidence_from_details (pyOr d (.dict [])) = .ok ev := by
  unfold detailsShapeOk at h
  rw [Bool.and_eq_true] at h
  obtain ⟨h1, h2⟩ := h
  obtain ⟨kvs, hk⟩ := dictish_pyOr h1
  rw [hk] at h2 ⊢
  simp only [List.all_cons, List.all_nil, Bool.and_eq_true, Bool.and_true, lookupD] at h2
  obtain ⟨hda, htf, hbf, hdo, hce⟩ := h2
  obtain ⟨k1, e1⟩ := dictish_pyOr hda
  obtain ⟨k2, e2⟩ := dictish_pyOr htf
  obtain ⟨k3, e3⟩ := dictish_pyOr hbf
  obtain ⟨k4, e4⟩ := dictish_pyOr hdo
  obtain ⟨k5, e5⟩ := dictish_pyOr hce
  suffices hs : _build_evidence_from_details (Val.dict kvs) =
      .ok (mkEvidence
        (truthy (dictLookup k1 "attempted") &&
          strEndsWith (pyLower (pyStr (pyOr (dictLookup k1 "filename") (.str "")))) ".apk")
        (truthy (dictLookup k2 "credential_exfiltration") ||
          truthy (dictLookup k3 "external_post_on_input"))
        (truthy (dictLookup k3 "keystroke_capture"))
        (truthy (dictLookup k2 "ui_deception"))
        (truthy (dictLookup k2 "brand_impersonation"))
        (pyStr (pyOr (dictLookup k1 "filename") (.str "")))
        (pyNumVal (dictLookup k4 "domain_age_days"))
        (truthy (dictLookup k5 "suspicious"))
        (pyStr (pyOr (dictLookup k5 "issuer") (.str "unknown")))) by
    exact ⟨_, hs⟩
  unfold _build_evidence_from_details
  simp only [pyGet_dict, exBind_ok, e1, e2, e3, e4, e5, exPure_def]

theorem build_bundle_total :
    ∀ log : Val, safeShapeLog log = true →
      exceptIsOk (build_evidence_bundle log) = true := by
  intro log h
  unfold safeShapeLog at h
  simp only [Bool.and_eq_true] at h
  obtain ⟨⟨⟨⟨⟨⟨⟨hdict, hoi⟩, hsm⟩, hcf⟩, hres⟩, hss⟩, hrd⟩, hlim⟩ := h
  obtain ⟨kvs, rfl⟩ := isDict_exists hdict
  simp only [lookupD] at hoi hsm hcf hres hss hrd hlim
  obtain ⟨ko, eo⟩ := dictish_pyOr hoi
  obtain ⟨ks, es⟩ := dictish_pyOr hsm
  obtain ⟨kc, ec⟩ := dictish_pyOr hcf
  rw [ec] at hlim
  simp only [lookupD] at hlim
  obtain ⟨ev, hev⟩ := build_details_total hres
  simp only [detailsShapeOk, Bool.and_eq_true] at hres
  obtain ⟨kr, er⟩ := dictish_pyOr hres.1
  rw [er] at hrd hev
  simp only [lookupD] at hrd
  obtain ⟨so, hso⟩ := validateScreenshot_total hss
  obtain ⟨ro, hro⟩ := validateRedirect_total hrd
  obtain ⟨lo, hlo⟩ := validateLimitations_total hlim
  unfold build_evidence_bundle
  simp only [pyGet_dict, exBind_ok, eo, es, ec, er, hev, hso, hro, hlo,
    exPure_def, exceptIsOk]

theorem screenshotSrc_dict (kvs : List (String × Val)) (s1 : Val) :
    screenshotSrc (.dict kvs) s1 =
      .ok (pyOr s1 (dictLookup kvs "visual_snapshot_storage")) := by
  by_cases ht : truthy s1 = true
  · simp [screenshotSrc, pyOr, ht]
  · rw [Bool.not_eq_true] at ht
    simp [screenshotSrc, pyOr, ht, pyGet]

theorem build_from_details_total :
    ∀ (rid : String) (payload : Val), safeShapePayload payload = true →
      exceptIsOk (build_evidence_bundle_from_details rid payload) = true := by
  intro rid payload h
  unfold safeShapePayload at h
  simp only [Bool.and_eq_true] at h
  obtain ⟨⟨⟨⟨⟨⟨hdict, hsm⟩, hcf⟩, hdet⟩, hss⟩, hrd⟩, hlim⟩ := h
  obtain ⟨kvs, rfl⟩ := isDict_exists hdict
  simp only [lookupD] at hsm hcf hdet hss hrd hlim
  obtain ⟨ks, es⟩ := dictish_pyOr hsm
  obtain ⟨kc, ec⟩ := dictish_pyOr hcf
  rw [ec] at hlim
  simp only [lookupD] at hlim
  obtain ⟨ev, hev⟩ := build_details_total hdet
  simp only [detailsShapeOk, Bool.and_eq_true] at hdet
  obtain ⟨kd, ed⟩ := dictish_pyOr hdet.1
  rw [ed] at hrd hev
  simp only [lookupD] at hrd
  obtain ⟨so, hso⟩ := validateScreenshot_total hss
  obtain ⟨ro, hro⟩ := validateRedirect_total hrd
  obtain ⟨lo, hlo⟩ := validateLimitations_total hlim
  unfold build_evidence_bundle_from_details
  simp only [pyGet_dict, exBind_ok, es, ec, ed, hev, hso, hro, hlo,
    screenshotSrc_dict, exPure_def, exceptIsOk]

/-- C4 (amended): both extractor entry points are total on dictionaries
whose structured sub-fields are dicts or falsy and whose pydantic-validated
container fields have the expected shapes; absent or falsy fields degrade
to the safe defaults (empty string, UNKNOWN, 0.0).  A truthy wrong-typed
structured field (e.g. `original_input` a non-empty string) raises instead
of degrading. -/
theorem c4_extractor_totality :
    (∀ log : Val, safeShapeLog log = true →
      exceptIsOk (build_evidence_bundle log) = true) ∧
    (∀ (rid : String) (payload : Val), safeShapePayload payload = true →
      exceptIsOk (build_evidence_bundle_from_details rid payload) = true) ∧
    (build_evidence_bundle (.dict []) =
      .ok ⟨"unknown", "", "", "", "", "UNKNOWN", 0, none, [], [], "UNKNOWN", []⟩) ∧
    (∀ rid : String, build_evidence_bundle_from_details rid (.dict []) =
      .ok ⟨rid, "", "", "", "", "UNKNOWN", 0, none, [], [], "UNKNOWN", []⟩) :=
  ⟨build_bundle_total, build_from_details_total, rfl, fun _ => rfl⟩

/-- C4 counterexample: a dictionary input whose `original_input` is a
truthy string makes `build_evidence_bundle` raise `AttributeError`
(`"hello".get(...)`), and a string `summary` does the same for the
persisted-record entry point — extraction is not total. -/
theorem c4_extractor_totality_cex :
    isDictVal c4input = true ∧
    build_evidence_bundle c4input = .error .attributeError ∧
    build_evidence_bundle_from_details "x" (.dict [("summary", .str "oops")]) =
      .error .attributeError :=
  ⟨rfl, rfl, rfl⟩

/-- C4 witness: the fixture log satisfies the shape hypothesis and
extraction succeeds on it; the empty dict yields the all-defaults bundle. -/
theorem c4_extractor_totality_witness :
    exceptIsOk (build_evidence_bundle MOCK_LOG_UUID) = true ∧
    build_evidence_bundle_from_details "rid0" (.dict []) =
      .ok ⟨"rid0", "", "", "", "", "UNKNOWN", 0, none, [], [], "UNKNOWN", []⟩ :=
  ⟨c4_extractor_totality.1 MOCK_LOG_UUID rfl,
   c4_extractor_totality.2.2.2 "rid0"⟩

end AIExplainer
